import Mathlib

/-!
Verification of the asynchronous video-generation engine
(`src/modules/video_generator.py` together with `src/config.py`).

The Python source is shallowly embedded: pure logic becomes Lean functions,
`async` control flow becomes explicit response streams plus traces of the
sleeps and callback invocations performed, timestamps become natural-number
time units, and raising an exception becomes returning `Except.error` with
the raised message.
-/

namespace VeoWorkspace

/-! ## Configuration constants (`src/config.py`) -/

/-- `MAX_CONCURRENT_REQUESTS` default (config.py line 42/44). -/
def MAX_CONCURRENT_REQUESTS : Nat := 20

/-- `MAX_RETRIES` (config.py line 48). -/
def MAX_RETRIES : Nat := 3

/-- `RETRY_DELAY` in time units (config.py line 49). -/
def RETRY_DELAY : Nat := 2

/-- `POLLING_INTERVAL` in time units (config.py line 52). -/
def POLLING_INTERVAL : Nat := 5

/-- `MAX_POLLING_TIME` in time units (config.py line 53). -/
def MAX_POLLING_TIME : Nat := 600

/-- `ERROR_MESSAGES["invalid_api_key"]` (config.py). -/
def invalid_api_key_msg : String := "유효하지 않은 API 키입니다."

/-- `ERROR_MESSAGES["network_error"]` (config.py). -/
def network_error_msg : String := "네트워크 오류가 발생했습니다."

/-- `ERROR_MESSAGES["timeout_error"]` (config.py). -/
def timeout_error_msg : String := "요청 시간이 초과되었습니다."

/-- `ERROR_MESSAGES["generation_failed"]` (config.py). -/
def generation_failed_msg : String := "영상 생성에 실패했습니다."

/-! ## Data model (`video_generator.py` lines 34-52) -/

/-- The dataclass `VideoGenerationResult` (lines 34-44).  `status` is a plain
string in the source (`status: str`, with the comment listing
pending/processing/completed/failed); timestamps are modelled as natural
time units. -/
structure VideoGenerationResult where
  task_id : String
  prompt : String
  status : String
  video_url : Option String := none
  error_message : Option String := none
  created_at : Option Nat := none
  completed_at : Option Nat := none
  deriving Repr, DecidableEq

/-- The `data` object of a code-200 status response as consumed by
`check_status` (lines 183-218).  `successFlag` is `none` when the key is
absent (the source defaults it to `0` via `data.get("successFlag", 0)`);
`promptFromParamJson` stands for the prompt extracted from `paramJson`
(lines 190-195), with `""` covering both the parse-failure fallback and a
missing key; `errorMessage` is `none` when absent (source defaults to
`"Unknown error"`); `resultUrls` is `none` when `response` or
`response.resultUrls` is absent (source defaults to `[]`). -/
structure StatusData where
  successFlag : Option Int := none
  promptFromParamJson : String := ""
  errorMessage : Option String := none
  resultUrls : Option (List String) := none
  deriving Repr, DecidableEq

/-! ## `check_status` (lines 162-231)

Only the non-raising path is embedded: an HTTP-200 response whose envelope
has `code == 200` and whose `data` object is the `StatusData` argument.  All
other paths (`HTTP != 200`, `code != 200`, network failure) re-raise and
yield no `VideoGenerationResult`, so they do not take part in claims about
the results this function returns.  `now` is the wall-clock reading used for
`datetime.now()` at line 213. -/

def check_status (now : Nat) (task_id : String) (data : StatusData) :
    VideoGenerationResult :=
  let success_flag : Int := data.successFlag.getD 0
  let prompt := data.promptFromParamJson
  let video_result : VideoGenerationResult :=
    { task_id := task_id
      prompt := prompt
      status :=
        if success_flag = 0 then "pending"
        else if success_flag = 1 then "completed"
        else "failed" }
  if success_flag = 1 then
    match data.resultUrls.getD [] with
    | [] => video_result
    | url :: _ =>
        { video_result with
            video_url := some url
            completed_at := some now
            status := "completed" }
  else if success_flag = 2 ∨ success_flag = 3 then
    { video_result with
        error_message := some (data.errorMessage.getD "Unknown error")
        status := "failed" }
  else
    video_result

/-- A result is terminal when its status is completed or failed
(the test at line 261: `result.status in ["completed", "failed"]`). -/
def isTerminal (r : VideoGenerationResult) : Bool :=
  r.status == "completed" || r.status == "failed"

/-! ## `wait_for_completion` (lines 233-265)

The status endpoint is modelled as a stream `Nat → StatusData` giving the
`data` object of the `k`-th poll.  Network and sleep time is idealised the
way the spec's time-unit model does: polls are instantaneous and each sleep
advances the clock by `POLLING_INTERVAL`, so the elapsed time at the top of
iteration `k` is `POLLING_INTERVAL * k`, measured from loop entry.  The
trace records the number of polls issued, the number of sleeps performed,
and the snapshot passed to the progress callback at each poll (line 258
invokes the callback once per poll when one is given). -/

structure WaitTrace where
  polls : Nat
  sleeps : Nat
  snapshots : List VideoGenerationResult
  deriving Repr, DecidableEq

/-- The `while True` loop of `wait_for_completion`, structurally recursive
on a fuel bounding the iteration count.  The timeout test
`time.time() - start_time > MAX_POLLING_TIME` (line 250) fires at the
latest when `POLLING_INTERVAL * k > MAX_POLLING_TIME`, i.e. by iteration
`MAX_POLLING_TIME / POLLING_INTERVAL + 1`, so with the fuel chosen in
`wait_for_completion` the fuel-exhaustion branch is unreachable; it returns
the same timeout error so that even that branch agrees with the loop's only
non-returning exit. -/
def waitLoop (stream : Nat → StatusData) (task_id : String) :
    Nat → Nat → Except String (VideoGenerationResult × WaitTrace)
  | 0, _ => .error timeout_error_msg
  | fuel + 1, k =>
    if MAX_POLLING_TIME < POLLING_INTERVAL * k then
      .error timeout_error_msg
    else
      let result := check_status (POLLING_INTERVAL * k) task_id (stream k)
      if isTerminal result then
        .ok (result, ⟨1, 0, [result]⟩)
      else
        match waitLoop stream task_id fuel (k + 1) with
        | .ok (r, t) => .ok (r, ⟨t.polls + 1, t.sleeps + 1, result :: t.snapshots⟩)
        | .error e => .error e

/-- `wait_for_completion(task_id, progress_callback)` against a given
response stream. -/
def wait_for_completion (stream : Nat → StatusData) (task_id : String) :
    Except String (VideoGenerationResult × WaitTrace) :=
  waitLoop stream task_id (MAX_POLLING_TIME / POLLING_INTERVAL + 2) 0

/-! ## `generate_video` (lines 83-160)

One submission attempt's observable outcome.  `http200 code msg taskId`
is an HTTP-200 reply whose JSON envelope carries the application code,
message and optional `data.taskId`; `networkError` is an
`aiohttp.ClientError` raised by the request itself. -/

inductive SubmitResponse where
  | http200 (code : Int) (msg : String) (taskId : Option String)
  | http401
  | http429
  | httpOther (errorText : String)
  | networkError (errMsg : String)
  deriving Repr, DecidableEq

/-- The `for attempt in range(MAX_RETRIES)` loop of `generate_video`
(lines 116-160).  `attempt` is the Python loop variable; `remaining` is the
number of iterations the `range` still has (so `attempt + remaining =
MAX_RETRIES` at every call from `generate_video`), and the `remaining = 0`
base case is the fall-through `raise` at line 160.  `sleeps` accumulates,
in reverse, the durations of each `asyncio.sleep` performed; the returned
list is in chronological order.  A 429 reply sleeps
`RETRY_DELAY * (attempt + 1)` before retrying (line 146); a network error
sleeps `RETRY_DELAY` (line 156); both re-raise on the last attempt; every
other error aborts at once. -/
def generateLoop (now : Nat) (prompt : String) (stream : Nat → SubmitResponse) :
    Nat → Nat → List Nat → Except String (VideoGenerationResult × List Nat)
  | _, 0, _ => .error generation_failed_msg
  | attempt, remaining + 1, sleeps =>
    match stream attempt with
    | .http200 code msg taskId =>
      if code = 200 then
        match taskId with
        | some task_id =>
            .ok ({ task_id := task_id
                   prompt := prompt
                   status := "pending"
                   created_at := some now }, sleeps.reverse)
        | none => .error "응답에 taskId가 없습니다."
      else .error ("API 오류: " ++ msg)
    | .http401 => .error invalid_api_key_msg
    | .http429 =>
      if attempt < MAX_RETRIES - 1 then
        generateLoop now prompt stream (attempt + 1) remaining
          (RETRY_DELAY * (attempt + 1) :: sleeps)
      else .error "API 요청 한도 초과"
    | .httpOther errorText => .error ("API 오류: " ++ errorText)
    | .networkError _ =>
      if attempt < MAX_RETRIES - 1 then
        generateLoop now prompt stream (attempt + 1) remaining
          (RETRY_DELAY :: sleeps)
      else .error network_error_msg

/-- `generate_video(prompt, ...)` against a stream of per-attempt
responses, returning the result together with the chronological list of
sleep durations performed by the retry loop. -/
def generate_video (now : Nat) (prompt : String)
    (stream : Nat → SubmitResponse) :
    Except String (VideoGenerationResult × List Nat) :=
  generateLoop now prompt stream 0 MAX_RETRIES []

/-! ## `batch_generate` (lines 267-324)

Per prompt, `generate_with_semaphore` (lines 289-316) runs the full
lifecycle — `generate_video` then `wait_for_completion` — inside
`try/except`: the lifecycle of prompt `i` is modelled by
`outcome i prompt`, which is `.ok r` when the lifecycle returns the final
result `r` and `.error e` when any step raises an exception with message
`e`.  The `except` branch (lines 309-316) converts the exception into a
synthetic failed result with the placeholder id `failed_<index>`.
`asyncio.gather` (line 322) returns one entry per task in task order. -/

def syntheticFailed (index : Nat) (prompt : String) (errMsg : String) :
    VideoGenerationResult :=
  { task_id := "failed_" ++ toString index
    prompt := prompt
    status := "failed"
    error_message := some errMsg }

/-- The result `generate_with_semaphore` hands to `asyncio.gather` for one
prompt: the lifecycle's final result on the `try` path, the synthetic
failed result on the `except` path. -/
def lifecycleResult
    (outcome : Nat → String → Except String VideoGenerationResult)
    (index : Nat) (prompt : String) : VideoGenerationResult :=
  match outcome index prompt with
  | .ok r => r
  | .error e => syntheticFailed index prompt e

def batch_generate (prompts : List String)
    (outcome : Nat → String → Except String VideoGenerationResult) :
    List VideoGenerationResult :=
  prompts.enum.map fun p => lifecycleResult outcome p.1 p.2

/-! ## `get_statistics` (lines 326-359)

`success_rate` and `average_time` are Python floats computed from exact
counts and integer timestamps; they are modelled as rationals.  The
`completion_times` list (lines 342-346) collects
`completed_at - created_at` over completed results having both
timestamps. -/

structure Statistics where
  total : Nat
  completed : Nat
  failed : Nat
  pending : Nat
  success_rate : ℚ
  average_time : ℚ
  deriving Repr, DecidableEq

def completionTimes (results : List VideoGenerationResult) : List Int :=
  (results.filter fun r =>
      r.status == "completed" && r.created_at.isSome && r.completed_at.isSome
    ).map fun r => (r.completed_at.getD 0 : Int) - (r.created_at.getD 0 : Int)

def get_statistics (results : List VideoGenerationResult) : Statistics :=
  let total := results.length
  let completed := (results.filter fun r => r.status == "completed").length
  let failed := (results.filter fun r => r.status == "failed").length
  let pending := (results.filter fun r =>
      r.status == "pending" || r.status == "processing").length
  let completion_times := completionTimes results
  let avg_time : ℚ :=
    if completion_times = [] then 0
    else ((completion_times.map fun d => (d : ℚ)).sum) / completion_times.length
  { total := total
    completed := completed
    failed := failed
    pending := pending
    success_rate := if 0 < total then (completed : ℚ) / (total : ℚ) * 100 else 0
    average_time := avg_time }

/-! ## Semaphore discipline of `batch_generate` (lines 286-290)

`batch_generate` creates `asyncio.Semaphore(MAX_CONCURRENT_REQUESTS)` and
each `generate_with_semaphore` wraps its whole submit/poll lifecycle in
`async with semaphore`.  The cooperative scheduler is modelled as a
transition system: each job is waiting (not yet past the `async with`),
inFlight (holding a permit, in its submit/poll phase), or finished
(permit released); a step either admits a waiting job when a permit is
available — `Semaphore.acquire` suspends otherwise — or finishes an
in-flight job, releasing its permit.  The scheduler interleaves these
steps arbitrarily. -/

inductive JobPhase where
  | waiting
  | inFlight
  | finished
  deriving Repr, DecidableEq

structure SchedState where
  permits : Nat
  jobs : List JobPhase
  deriving Repr, DecidableEq

/-- Number of job lifecycles currently inside their submit/poll phase. -/
def countInFlight (s : SchedState) : Nat :=
  s.jobs.countP fun p => p == JobPhase.inFlight

/-- Initial state of a batch over `n` prompts with concurrency cap `k`. -/
def initState (n k : Nat) : SchedState :=
  { permits := k, jobs := List.replicate n JobPhase.waiting }

inductive SchedStep : SchedState → SchedState → Prop
  | start (s : SchedState) (i : Nat)
      (hjob : s.jobs.get? i = some JobPhase.waiting)
      (hperm : 0 < s.permits) :
      SchedStep s ⟨s.permits - 1, s.jobs.set i JobPhase.inFlight⟩
  | finish (s : SchedState) (i : Nat)
      (hjob : s.jobs.get? i = some JobPhase.inFlight) :
      SchedStep s ⟨s.permits + 1, s.jobs.set i JobPhase.finished⟩

/-- States a batch run can reach from its initial state. -/
def Reaches (n k : Nat) (s : SchedState) : Prop :=
  Relation.ReflTransGen SchedStep (initState n k) s

/-! ## Derived predicates and concrete fixtures -/

/-- An optional string field counts as non-empty when it is present and not
the empty string. -/
def optNonEmpty : Option String → Bool
  | some s => !(s == "")
  | none => false

/-- The result invariant claimed by the spec: `video_url` non-empty iff
completed, `error_message` non-empty iff failed.  The other halves of the
claim (exactly one non-empty in a terminal state, neither while
pending/processing) follow, since no status string is simultaneously
`"completed"` and `"failed"`. -/
def resultInvariant (r : VideoGenerationResult) : Prop :=
  (optNonEmpty r.video_url = true ↔ r.status = "completed") ∧
  (optNonEmpty r.error_message = true ↔ r.status = "failed")

instance (r : VideoGenerationResult) : Decidable (resultInvariant r) := by
  unfold resultInvariant
  exact inferInstance

/-- A status payload is well formed when its success flag is one of the four
documented values, a success carries a result-URL list whose first entry is
a non-empty string, and a failure's `errorMessage`, when present, is
non-empty. -/
def WellFormedStatus (d : StatusData) : Prop :=
  (d.successFlag.getD 0 = 0 ∨ d.successFlag.getD 0 = 1 ∨
      d.successFlag.getD 0 = 2 ∨ d.successFlag.getD 0 = 3) ∧
  (d.successFlag.getD 0 = 1 →
      ∃ url rest, d.resultUrls = some (url :: rest) ∧ url ≠ "") ∧
  ((d.successFlag.getD 0 = 2 ∨ d.successFlag.getD 0 = 3) →
      ∀ m, d.errorMessage = some m → m ≠ "")

/-- A success-flag-1 payload whose `resultUrls` is present but empty. -/
def emptyUrlsData : StatusData :=
  { successFlag := some 1, resultUrls := some [] }

/-- A success-flag-0 payload (job still generating). -/
def pendingData : StatusData :=
  { successFlag := some 0 }

/-- A success-flag-1 payload carrying one result URL. -/
def completedData (url : String) : StatusData :=
  { successFlag := some 1, resultUrls := some [url] }

/-- Submission answered HTTP 429 twice, then HTTP 200 with a task id. -/
def rateLimitedTwiceStream (tid : String) : Nat → SubmitResponse :=
  fun attempt =>
    if attempt < 2 then .http429 else .http200 200 "success" (some tid)

/-- Submission hitting a network error twice, then HTTP 200 with a task
id. -/
def networkFlakyStream (tid : String) : Nat → SubmitResponse :=
  fun attempt =>
    if attempt < 2 then .networkError "connection reset"
    else .http200 200 "success" (some tid)

/-- Status stream reporting success flag 0 twice, then flag 1 with one
result URL: the spec's `[0, 0, 1]` scenario. -/
def pendingPendingCompletedStream (url : String) : Nat → StatusData :=
  fun k => if k < 2 then pendingData else completedData url

/-- A batch of lifecycles in which the second prompt raises a simulated
exception and every other prompt completes. -/
def middleFailsOutcome : Nat → String → Except String VideoGenerationResult :=
  fun i p =>
    if i = 1 then .error "simulated"
    else .ok { task_id := "tid_" ++ toString i, prompt := p,
               status := "completed", video_url := some "http://v" }

/-! ## Structural lemmas about `check_status` -/

/-- `check_status` builds its result without ever setting `created_at`
(lines 197-221 construct the record with the field left at its `None`
default and only ever assign `video_url`, `completed_at`, `error_message`
and `status`). -/
theorem check_status_created_at (now : Nat) (tid : String) (d : StatusData) :
    (check_status now tid d).created_at = none := by
  unfold check_status
  dsimp only
  split
  · split <;> rfl
  · split <;> rfl

/-- `isTerminal` of a `check_status` result does not depend on the clock
reading passed for `datetime.now()`. -/
theorem isTerminal_check_status_clock (now now' : Nat) (tid : String)
    (d : StatusData) :
    isTerminal (check_status now tid d) = isTerminal (check_status now' tid d) := by
  unfold check_status isTerminal
  dsimp only
  split
  · split <;> rfl
  · split <;> rfl

/-- Every result `waitLoop` returns (rather than raising) is one produced
by `check_status` on some poll of the stream (lines 254-262: the loop's
only `return` hands back the `check_status` result unchanged). -/
theorem waitLoop_ok_shape (stream : Nat → StatusData) (tid : String) :
    ∀ fuel k r t, waitLoop stream tid fuel k = .ok (r, t) →
      ∃ j, r = check_status (POLLING_INTERVAL * j) tid (stream j) := by
  intro fuel
  induction fuel with
  | zero =>
    intro k r t h
    exact absurd h (by simp [waitLoop])
  | succ n ih =>
    intro k r t h
    unfold waitLoop at h
    split at h
    · exact absurd h (by simp)
    · dsimp only at h
      split at h
      · obtain ⟨h1, h2⟩ := Prod.mk.injEq .. ▸ Except.ok.inj h
        exact ⟨k, h1.symm⟩
      · split at h
        · next r' t' heq =>
          obtain ⟨h1, h2⟩ := Prod.mk.injEq .. ▸ Except.ok.inj h
          obtain ⟨j, hj⟩ := ih (k + 1) r' t' heq
          exact ⟨j, h1.symm ▸ hj⟩
        · exact absurd h (by simp)

/-- Every result `generateLoop` returns is the freshly-submitted record of
lines 129-134: status `"pending"`, no URL, no error message, `created_at`
set to the submission clock. -/
theorem generateLoop_ok_shape (now : Nat) (prompt : String)
    (stream : Nat → SubmitResponse) :
    ∀ remaining attempt sleeps r ds,
      generateLoop now prompt stream attempt remaining sleeps = .ok (r, ds) →
      ∃ tid, r = { task_id := tid, prompt := prompt, status := "pending"
                   created_at := some now } := by
  intro remaining
  induction remaining with
  | zero =>
    intro attempt sleeps r ds h
    exact absurd h (by simp [generateLoop])
  | succ n ih =>
    intro attempt sleeps r ds h
    unfold generateLoop at h
    split at h
    · split at h
      · split at h
        · obtain ⟨h1, h2⟩ := Prod.mk.injEq .. ▸ Except.ok.inj h
          exact ⟨_, h1.symm⟩
        · exact absurd h (by simp)
      · exact absurd h (by simp)
    · exact absurd h (by simp)
    · split at h
      · exact ih _ _ r ds h
      · exact absurd h (by simp)
    · exact absurd h (by simp)
    · split at h
      · exact ih _ _ r ds h
      · exact absurd h (by simp)

/-- The invariant holds of every `check_status` result built from a
well-formed status payload. -/
theorem check_status_invariant (now : Nat) (tid : String) (d : StatusData)
    (hd : WellFormedStatus d) : resultInvariant (check_status now tid d) := by
  obtain ⟨hflag, hurl, herr⟩ := hd
  rcases hflag with h | h | h | h
  · unfold check_status
    rw [h]
    simp only [resultInvariant, optNonEmpty]
    constructor <;> simp
  · obtain ⟨url, rest, hurls, hne⟩ := hurl h
    unfold check_status
    rw [h, hurls]
    simp only [resultInvariant, optNonEmpty]
    constructor <;> simp [hne]
  · have hmsg : d.errorMessage.getD "Unknown error" ≠ "" := by
      cases hm : d.errorMessage with
      | none => simp
      | some m => simpa using herr (Or.inl h) m hm
    unfold check_status
    rw [h]
    simp only [resultInvariant, optNonEmpty]
    constructor <;> simp [hmsg]
  · have hmsg : d.errorMessage.getD "Unknown error" ≠ "" := by
      cases hm : d.errorMessage with
      | none => simp
      | some m => simpa using herr (Or.inr h) m hm
    unfold check_status
    rw [h]
    simp only [resultInvariant, optNonEmpty]
    constructor <;> simp [hmsg]

/-! ## C1 -/

/-- C1 amended: the invariant — `video_url` non-empty iff
`status = "completed"`, `error_message` non-empty iff `status = "failed"`,
hence in a terminal state exactly one of the two is non-empty and while
pending neither is — holds for every result the public operations produce
from *well-formed* inputs: status payloads whose success flag is one of
0,1,2,3, whose flag-1 responses carry a non-empty URL as first result, and
whose failure messages (and simulated exception messages in a batch) are
non-empty strings.  It does not hold unconditionally (see the
counterexample, where a flag-1 response with empty `resultUrls` yields a
completed result with no URL). -/
theorem C1_result_invariant_wellformed :
    (∀ now tid d, WellFormedStatus d →
        resultInvariant (check_status now tid d)) ∧
    (∀ now prompt stream r ds,
        generate_video now prompt stream = .ok (r, ds) →
        resultInvariant r) ∧
    (∀ stream tid r t, (∀ k, WellFormedStatus (stream k)) →
        wait_for_completion stream tid = .ok (r, t) →
        resultInvariant r) ∧
    (∀ index prompt errMsg, errMsg ≠ "" →
        resultInvariant (syntheticFailed index prompt errMsg)) ∧
    (∀ prompts outcome,
        (∀ i p r, outcome i p = .ok r → resultInvariant r) →
        (∀ i p e, outcome i p = .error e → e ≠ "") →
        ∀ r ∈ batch_generate prompts outcome, resultInvariant r) := by
  have hsyn : ∀ (index : Nat) (prompt errMsg : String), errMsg ≠ "" →
      resultInvariant (syntheticFailed index prompt errMsg) := by
    intro index prompt errMsg hne
    unfold syntheticFailed resultInvariant optNonEmpty
    constructor <;> simp [hne]
  refine ⟨check_status_invariant, ?_, ?_, hsyn, ?_⟩
  · intro now prompt stream r ds h
    obtain ⟨tid, htid⟩ := generateLoop_ok_shape now prompt stream _ _ _ r ds h
    subst htid
    unfold resultInvariant optNonEmpty
    constructor <;> simp
  · intro stream tid r t hwf h
    obtain ⟨j, hj⟩ := waitLoop_ok_shape stream tid _ _ r t h
    exact hj ▸ check_status_invariant _ tid (stream j) (hwf j)
  · intro prompts outcome hok herr r hr
    obtain ⟨⟨i, p⟩, hmem, heq⟩ := List.mem_map.mp hr
    subst heq
    unfold lifecycleResult
    cases houtcome : outcome i p with
    | ok v => exact hok i p v houtcome
    | error e => exact hsyn i p e (herr i p e houtcome)

/-- C1 witness: the amended theorem applied to a well-formed completed
status payload, a straight-through submission, a one-poll completed wait, a
synthetic batch failure, and a one-prompt batch whose lifecycle raises. -/
theorem C1_result_invariant_wellformed_witness :
    resultInvariant (check_status 0 "task" (completedData "http://v")) ∧
    resultInvariant (syntheticFailed 0 "p" "boom") ∧
    (∀ r ∈ batch_generate ["p"] (fun _ _ => .error "boom"), resultInvariant r) := by
  have hwf : WellFormedStatus (completedData "http://v") := by
    refine ⟨by decide, fun _ => ⟨"http://v", [], rfl, by decide⟩, ?_⟩
    intro hflag
    exact absurd hflag (by decide)
  refine ⟨C1_result_invariant_wellformed.1 0 "task" _ hwf,
    C1_result_invariant_wellformed.2.2.2.1 0 "p" "boom" (by decide), ?_⟩
  exact C1_result_invariant_wellformed.2.2.2.2 ["p"] (fun _ _ => .error "boom")
    (fun i p r h => by simp at h) (fun i p e h => by simp at h; simp [h.symm])

/-- C1 counterexample: on a success-flag-1 response whose `resultUrls` is
empty, `check_status` returns `status = "completed"` with `video_url =
None`, so the produced result violates the claimed invariant
"`video_url` is non-empty iff `status = completed`". -/
theorem C1_counterexample :
    ¬ resultInvariant (check_status 0 "task" emptyUrlsData) := by
  decide

/-! ## C2 -/

/-- C2 counterexample: the claim says a success-flag-1 response with an
absent or empty `resultUrls` leaves the job non-terminal and re-polled; the
code instead returns the terminal status `"completed"` (with no URL) from
`check_status`, and `wait_for_completion` returns on that very first poll,
sleeping zero times. -/
theorem C2_counterexample :
    (check_status 0 "task" emptyUrlsData).status = "completed" ∧
    wait_for_completion (fun _ => emptyUrlsData) "task" =
      .ok (check_status 0 "task" emptyUrlsData,
           ⟨1, 0, [check_status 0 "task" emptyUrlsData]⟩) := by
  constructor
  · decide
  · rfl

/-- C2 amended: a success-flag-1 response with an absent or empty
`resultUrls` list is treated as terminal: `check_status` returns
`status = "completed"` with `video_url = None` and no `completed_at`, and
`wait_for_completion` returns that result on the poll that sees it (here
the first), performing no sleep afterwards. -/
theorem C2_empty_urls_completed (now : Nat) (tid : String) (d : StatusData)
    (stream : Nat → StatusData)
    (hflag : d.successFlag.getD 0 = 1)
    (hurls : d.resultUrls.getD [] = [])
    (hfirst : stream 0 = d) :
    (check_status now tid d).status = "completed" ∧
    (check_status now tid d).video_url = none ∧
    (check_status now tid d).completed_at = none ∧
    wait_for_completion stream tid =
      .ok (check_status 0 tid d, ⟨1, 0, [check_status 0 tid d]⟩) := by
  have hshape : ∀ m, check_status m tid d =
      { task_id := tid, prompt := d.promptFromParamJson, status := "completed" } := by
    intro m
    unfold check_status
    rw [hflag]
    simp [hurls]
  refine ⟨by rw [hshape], by rw [hshape], by rw [hshape], ?_⟩
  unfold wait_for_completion waitLoop
  rw [hfirst]
  simp [hshape, isTerminal]

/-- C2 witness. -/
theorem C2_empty_urls_completed_witness :
    (check_status 0 "task" emptyUrlsData).status = "completed" ∧
    (check_status 0 "task" emptyUrlsData).video_url = none ∧
    (check_status 0 "task" emptyUrlsData).completed_at = none ∧
    wait_for_completion (fun _ => emptyUrlsData) "task" =
      .ok (check_status 0 "task" emptyUrlsData,
           ⟨1, 0, [check_status 0 "task" emptyUrlsData]⟩) :=
  C2_empty_urls_completed 0 "task" emptyUrlsData (fun _ => emptyUrlsData)
    (by decide) (by decide) rfl

/-! ## C3 -/

/-- C3 counterexample: for a success flag outside {0,1,2,3} (here 4) the
`elif success_flag in [2, 3]` branch (line 215) does not fire, so the
result is `status = "failed"` with `error_message = None` even though the
response carried an `errorMessage` — refuting the claim that every flag
other than 0 and 1 yields a failed result carrying an error message. -/
theorem C3_counterexample :
    (check_status 0 "task"
        { successFlag := some 4, errorMessage := some "boom" }).status = "failed" ∧
    (check_status 0 "task"
        { successFlag := some 4, errorMessage := some "boom" }).error_message = none := by
  constructor <;> decide

/-- C3 amended: every success flag other than 0 and 1 yields
`status = "failed"`, but an error message (taken from `errorMessage`,
defaulting to "Unknown error" when absent) is attached only for flags 2 and
3; for any other flag the failed result's `error_message` is `None`. -/
theorem C3_flag_classification (now : Nat) (tid : String) (d : StatusData) :
    (d.successFlag.getD 0 ≠ 0 → d.successFlag.getD 0 ≠ 1 →
        (check_status now tid d).status = "failed") ∧
    (d.successFlag.getD 0 = 2 ∨ d.successFlag.getD 0 = 3 →
        (check_status now tid d).error_message =
          some (d.errorMessage.getD "Unknown error")) ∧
    (d.successFlag.getD 0 ≠ 0 → d.successFlag.getD 0 ≠ 1 →
        d.successFlag.getD 0 ≠ 2 → d.successFlag.getD 0 ≠ 3 →
        (check_status now tid d).error_message = none) := by
  unfold check_status
  dsimp only
  refine ⟨?_, ?_, ?_⟩
  · intro h0 h1
    rw [if_neg h1, if_neg h0]
    split <;> rfl
  · intro h23
    have h1 : d.successFlag.getD 0 ≠ 1 := by rcases h23 with h | h <;> omega
    rw [if_neg h1, if_pos h23]
  · intro h0 h1 h2 h3
    rw [if_neg h1, if_neg (by tauto), if_neg h0]

/-- C3 witness: flag 2 with `errorMessage = "bad prompt"` gives a failed
result carrying "bad prompt"; flag 4 gives a failed result with no
message. -/
theorem C3_flag_classification_witness :
    (check_status 0 "task"
        { successFlag := some 2, errorMessage := some "bad prompt" }).error_message =
      some "bad prompt" ∧
    (check_status 0 "task" { successFlag := some 4 : StatusData }).status = "failed" ∧
    (check_status 0 "task" { successFlag := some 4 : StatusData }).error_message = none := by
  refine ⟨?_, ?_, ?_⟩
  · exact (C3_flag_classification 0 "task"
      { successFlag := some 2, errorMessage := some "bad prompt" }).2.1 (by decide)
  · exact (C3_flag_classification 0 "task"
      { successFlag := some 4 }).1 (by decide) (by decide)
  · exact (C3_flag_classification 0 "task"
      { successFlag := some 4 }).2.2 (by decide) (by decide) (by decide) (by decide)

/-! ## C4 -/

/-- C4 counterexample: the claim says linear backoff
(`delay * attempt_number`: 2 then 4 time-units) is applied to network
errors too, but on two network errors followed by success the retry loop
sleeps `RETRY_DELAY` both times (line 156) — 2 then 2, not 2 then 4. -/
theorem C4_counterexample :
    generate_video 0 "p" (networkFlakyStream "tid") =
      .ok ({ task_id := "tid", prompt := "p", status := "pending",
             created_at := some 0 },
           [RETRY_DELAY, RETRY_DELAY]) ∧
    [RETRY_DELAY, RETRY_DELAY] ≠ [RETRY_DELAY * 1, RETRY_DELAY * 2] := by
  constructor
  · rfl
  · decide

/-- C4 amended: `generate_video` retries up to `MAX_RETRIES` (3) attempts;
rate-limit replies (HTTP 429) back off linearly, sleeping
`RETRY_DELAY * attempt_number` (2 then 4 with defaults), while network
errors retry after a constant `RETRY_DELAY` (2 then 2); auth errors
(HTTP 401) and malformed responses (HTTP 200 without a `taskId`) abort
immediately, whatever the later attempts would have answered; and a
submission answered 429, 429, then 200 succeeds on the 3rd attempt. -/
theorem C4_retry_policy (now : Nat) (prompt : String)
    (stream : Nat → SubmitResponse) :
    (stream 0 = .http401 →
        generate_video now prompt stream = .error invalid_api_key_msg) ∧
    (∀ msg, stream 0 = .http200 200 msg none →
        generate_video now prompt stream = .error "응답에 taskId가 없습니다.") ∧
    (∀ msg tid, stream 0 = .http429 → stream 1 = .http429 →
        stream 2 = .http200 200 msg (some tid) →
        generate_video now prompt stream =
          .ok ({ task_id := tid, prompt := prompt, status := "pending",
                 created_at := some now },
               [RETRY_DELAY * 1, RETRY_DELAY * 2])) ∧
    (∀ e1 e2 msg tid,
        stream 0 = .networkError e1 → stream 1 = .networkError e2 →
        stream 2 = .http200 200 msg (some tid) →
        generate_video now prompt stream =
          .ok ({ task_id := tid, prompt := prompt, status := "pending",
                 created_at := some now },
               [RETRY_DELAY, RETRY_DELAY])) := by
  refine ⟨?_, ?_, ?_, ?_⟩
  · intro h0
    unfold generate_video MAX_RETRIES generateLoop
    rw [h0]
  · intro msg h0
    unfold generate_video MAX_RETRIES generateLoop
    rw [h0]
    rfl
  · intro msg tid h0 h1 h2
    unfold generate_video MAX_RETRIES generateLoop
    rw [h0]
    norm_num [MAX_RETRIES]
    unfold generateLoop
    rw [h1]
    norm_num [MAX_RETRIES]
    unfold generateLoop
    rw [h2]
    rfl
  · intro e1 e2 msg tid h0 h1 h2
    unfold generate_video MAX_RETRIES generateLoop
    rw [h0]
    norm_num [MAX_RETRIES]
    unfold generateLoop
    rw [h1]
    norm_num [MAX_RETRIES]
    unfold generateLoop
    rw [h2]
    rfl

/-- C4 witness: the four parts of the amended retry policy at concrete
response streams. -/
theorem C4_retry_policy_witness :
    generate_video 0 "p" (fun _ => .http401) = .error invalid_api_key_msg ∧
    generate_video 0 "p" (fun _ => .http200 200 "success" none) =
      .error "응답에 taskId가 없습니다." ∧
    generate_video 0 "p" (rateLimitedTwiceStream "tid") =
      .ok ({ task_id := "tid", prompt := "p", status := "pending",
             created_at := some 0 },
           [RETRY_DELAY * 1, RETRY_DELAY * 2]) ∧
    generate_video 0 "p" (networkFlakyStream "tid") =
      .ok ({ task_id := "tid", prompt := "p", status := "pending",
             created_at := some 0 },
           [RETRY_DELAY, RETRY_DELAY]) :=
  ⟨(C4_retry_policy 0 "p" (fun _ => .http401)).1 rfl,
   (C4_retry_policy 0 "p" (fun _ => .http200 200 "success" none)).2.1 "success" rfl,
   (C4_retry_policy 0 "p" (rateLimitedTwiceStream "tid")).2.2.1 "success" "tid"
     rfl rfl rfl,
   (C4_retry_policy 0 "p" (networkFlakyStream "tid")).2.2.2 "connection reset"
     "connection reset" "success" "tid" rfl rfl rfl⟩

/-! ## C5 -/

/-- C5: `batch_generate` returns exactly one result per input prompt, the
entry at index `i` is a function of prompt `i`'s own lifecycle outcome
alone, and a lifecycle that raises with message `e` becomes the synthetic
failed result with the locally-generated placeholder id `failed_<i>`
(which no remote id collides with, remote ids being issued by the service,
not this local scheme), the prompt, and `error_message` equal to the
exception's message — other entries are untouched. -/
theorem C5_batch_one_result_per_prompt (prompts : List String)
    (outcome : Nat → String → Except String VideoGenerationResult) :
    (batch_generate prompts outcome).length = prompts.length ∧
    (∀ i p, prompts[i]? = some p →
        (batch_generate prompts outcome)[i]? =
          some (lifecycleResult outcome i p)) ∧
    (∀ i p e, prompts[i]? = some p → outcome i p = .error e →
        (batch_generate prompts outcome)[i]? =
          some { task_id := "failed_" ++ toString i, prompt := p,
                 status := "failed", error_message := some e }) := by
  have hget : ∀ i p, prompts[i]? = some p →
      (batch_generate prompts outcome)[i]? =
        some (lifecycleResult outcome i p) := by
    intro i p hp
    unfold batch_generate
    rw [List.getElem?_map, List.getElem?_enum, hp]
    rfl
  refine ⟨by simp [batch_generate], hget, ?_⟩
  intro i p e hp he
  rw [hget i p hp]
  unfold lifecycleResult syntheticFailed
  rw [he]

/-- C5 witness: a 3-prompt batch whose middle lifecycle raises yields 3
results, with the middle one synthetic-failed. -/
theorem C5_batch_one_result_per_prompt_witness :
    (batch_generate ["a", "b", "c"] middleFailsOutcome).length = 3 ∧
    (batch_generate ["a", "b", "c"] middleFailsOutcome)[1]? =
      some { task_id := "failed_1", prompt := "b", status := "failed",
             error_message := some "simulated" } := by
  refine ⟨(C5_batch_one_result_per_prompt ["a", "b", "c"] middleFailsOutcome).1, ?_⟩
  exact (C5_batch_one_result_per_prompt ["a", "b", "c"] middleFailsOutcome).2.2
    1 "b" "simulated" rfl rfl

/-! ## C7 -/

/-- C7: on the success-flag sequence [0, 0, 1] whose final response carries
a non-empty `resultUrls`, `wait_for_completion` returns the completed
result after exactly 2 sleeps of one polling interval (poll, sleep, poll,
sleep, poll, return), invoking the progress callback once per poll — three
snapshots, one per poll, the first two pending and the last completed. -/
theorem C7_completes_after_two_intervals :
    wait_for_completion (pendingPendingCompletedStream "http://v") "task" =
      .ok ({ task_id := "task", prompt := "", status := "completed",
             video_url := some "http://v",
             completed_at := some (POLLING_INTERVAL * 2) },
           { polls := 3, sleeps := 2,
             snapshots :=
               [{ task_id := "task", prompt := "", status := "pending" },
                { task_id := "task", prompt := "", status := "pending" },
                { task_id := "task", prompt := "", status := "completed",
                  video_url := some "http://v",
                  completed_at := some (POLLING_INTERVAL * 2) }] }) := by
  rfl

/-! ## C6 -/

/-- C6: `wait_for_completion` terminates on every status stream — it is a
total function here, the fuel being justified by the timeout check — and
whenever no poll made within the `MAX_POLLING_TIME` budget reports a
terminal result, it raises the timeout error (line 251) instead of looping
forever or fabricating a failed result: the job is abandoned with an
exception, not returned as a `VideoGenerationResult`. -/
theorem C6_polling_timeout (stream : Nat → StatusData) (tid : String)
    (h : ∀ k, POLLING_INTERVAL * k ≤ MAX_POLLING_TIME →
        isTerminal (check_status (POLLING_INTERVAL * k) tid (stream k)) = false) :
    wait_for_completion stream tid = .error timeout_error_msg := by
  have main : ∀ fuel k, waitLoop stream tid fuel k = .error timeout_error_msg := by
    intro fuel
    induction fuel with
    | zero => intro k; rfl
    | succ n ih =>
      intro k
      unfold waitLoop
      split
      · rfl
      · next hk =>
        dsimp only
        simp [h k (le_of_not_lt hk), ih]
  exact main _ 0

/-- C6 witness: a stream that reports success flag 0 forever times out. -/
theorem C6_polling_timeout_witness :
    (∀ k, POLLING_INTERVAL * k ≤ MAX_POLLING_TIME →
        isTerminal (check_status (POLLING_INTERVAL * k) "task"
          ((fun _ => pendingData) k)) = false) ∧
    wait_for_completion (fun _ => pendingData) "task" =
      .error timeout_error_msg :=
  ⟨fun _ _ => rfl, C6_polling_timeout (fun _ => pendingData) "task" fun _ _ => rfl⟩

/-! ## C8 -/

/-- C8 counterexample: over *all* result sets the partition equation
fails — a result whose status string is outside the four documented values
(here "cancelled", constructible since the dataclass field is a plain
string) is counted by none of the three buckets, so
`completed + failed + pending = 0 ≠ 1 = total`. -/
theorem C8_counterexample :
    (get_statistics [{ task_id := "t", prompt := "p", status := "cancelled" }]).completed +
      (get_statistics [{ task_id := "t", prompt := "p", status := "cancelled" }]).failed +
      (get_statistics [{ task_id := "t", prompt := "p", status := "cancelled" }]).pending ≠
      (get_statistics [{ task_id := "t", prompt := "p", status := "cancelled" }]).total := by
  decide

/-- C8 amended: `completed + failed + pending = total` holds for every
result set all of whose statuses lie in the documented set
{pending, processing, completed, failed} — in particular for everything
the engine itself produces — but not for arbitrary result records. -/
theorem C8_statistics_partition (results : List VideoGenerationResult)
    (h : ∀ r ∈ results, r.status = "pending" ∨ r.status = "processing" ∨
        r.status = "completed" ∨ r.status = "failed") :
    (get_statistics results).completed + (get_statistics results).failed +
      (get_statistics results).pending = (get_statistics results).total := by
  induction results with
  | nil => rfl
  | cons r rs ih =>
    have hr := h r (List.mem_cons_self r rs)
    have ih' := ih fun x hx => h x (List.mem_cons_of_mem r hx)
    simp only [get_statistics, List.filter_cons, List.length_cons] at ih' ⊢
    rcases hr with hs | hs | hs | hs <;> simp [hs] <;> omega

/-- C8 witness: the partition equation on a mixed, documented-status
result set. -/
theorem C8_statistics_partition_witness :
    (get_statistics
        [{ task_id := "a", prompt := "p", status := "completed" },
         { task_id := "b", prompt := "p", status := "failed" },
         { task_id := "c", prompt := "p", status := "pending" }]).completed +
      (get_statistics
        [{ task_id := "a", prompt := "p", status := "completed" },
         { task_id := "b", prompt := "p", status := "failed" },
         { task_id := "c", prompt := "p", status := "pending" }]).failed +
      (get_statistics
        [{ task_id := "a", prompt := "p", status := "completed" },
         { task_id := "b", prompt := "p", status := "failed" },
         { task_id := "c", prompt := "p", status := "pending" }]).pending =
      (get_statistics
        [{ task_id := "a", prompt := "p", status := "completed" },
         { task_id := "b", prompt := "p", status := "failed" },
         { task_id := "c", prompt := "p", status := "pending" }]).total :=
  C8_statistics_partition _ (by simp)

/-! ## C9 -/

/-- Replacing a list entry exchanges its contribution to a `countP`. -/
theorem countP_set_exchange (p : JobPhase → Bool) :
    ∀ (l : List JobPhase) (i : Nat) (a b : JobPhase), l.get? i = some a →
      (l.set i b).countP p + (if p a then 1 else 0) =
        l.countP p + (if p b then 1 else 0) := by
  intro l
  induction l with
  | nil => intro i a b hget; simp at hget
  | cons x xs ih =>
    intro i a b hget
    cases i with
    | zero =>
      simp only [List.get?_cons_zero, Option.some.injEq] at hget
      subst hget
      simp only [List.set_cons_zero, List.countP_cons]
      omega
    | succ n =>
      simp only [List.get?_cons_succ] at hget
      have := ih n a b hget
      simp only [List.set_cons_succ, List.countP_cons]
      omega

/-- Each scheduler step preserves `in-flight + free permits = cap`:
admitting a job consumes one permit (possible only while one is free,
`Semaphore.acquire` suspending otherwise), finishing a job returns one. -/
theorem schedStep_inv (k : Nat) {s s' : SchedState} (hstep : SchedStep s s')
    (hinv : countInFlight s + s.permits = k) :
    countInFlight s' + s'.permits = k := by
  cases hstep with
  | start i hjob hperm =>
    have hc := countP_set_exchange (fun p => p == JobPhase.inFlight)
      s.jobs i JobPhase.waiting JobPhase.inFlight hjob
    unfold countInFlight at hinv ⊢
    dsimp only at hc ⊢
    simp at hc
    omega
  | finish i hjob =>
    have hc := countP_set_exchange (fun p => p == JobPhase.inFlight)
      s.jobs i JobPhase.inFlight JobPhase.finished hjob
    unfold countInFlight at hinv ⊢
    dsimp only at hc ⊢
    simp at hc
    omega

/-- No job is in flight before the batch starts. -/
theorem countInFlight_initState (n k : Nat) :
    countInFlight (initState n k) = 0 := by
  unfold countInFlight initState
  induction n with
  | zero => rfl
  | succ m ih => simp [List.replicate_succ, List.countP_cons, ih]

/-- The semaphore invariant holds in every reachable state of a batch
run. -/
theorem reaches_inv (n k : Nat) (s : SchedState) (h : Reaches n k s) :
    countInFlight s + s.permits = k := by
  induction h with
  | refl =>
    rw [countInFlight_initState]
    simp [initState]
  | tail _ hstep ih => exact schedStep_inv k hstep ih

/-- C9: in every state a `batch_generate` run over `n` prompts with
concurrency cap `k` can reach, at most `k` job lifecycles are inside their
submit/poll phase simultaneously — in particular, with 5 prompts and cap 2
never more than 2 are concurrently in flight. -/
theorem C9_concurrency_bound (n k : Nat) (s : SchedState)
    (h : Reaches n k s) : countInFlight s ≤ k := by
  have := reaches_inv n k s h
  omega

/-- C9 witness: a 5-prompt, cap-2 run that has admitted jobs 0 and 1 is a
reachable state with both permits consumed, and the bound holds there. -/
theorem C9_concurrency_bound_witness :
    Reaches 5 2
      ⟨0, ((List.replicate 5 JobPhase.waiting).set 0 JobPhase.inFlight).set 1
            JobPhase.inFlight⟩ ∧
    countInFlight
      ⟨0, ((List.replicate 5 JobPhase.waiting).set 0 JobPhase.inFlight).set 1
            JobPhase.inFlight⟩ ≤ 2 := by
  have h1 : SchedStep (initState 5 2)
      ⟨1, (List.replicate 5 JobPhase.waiting).set 0 JobPhase.inFlight⟩ := by
    have := SchedStep.start (initState 5 2) 0 (by decide) (by decide)
    simpa [initState] using this
  have h2 : SchedStep
      ⟨1, (List.replicate 5 JobPhase.waiting).set 0 JobPhase.inFlight⟩
      ⟨0, ((List.replicate 5 JobPhase.waiting).set 0 JobPhase.inFlight).set 1
            JobPhase.inFlight⟩ := by
    have := SchedStep.start
      ⟨1, (List.replicate 5 JobPhase.waiting).set 0 JobPhase.inFlight⟩ 1
      (by decide) (by decide)
    simpa using this
  have hreach : Reaches 5 2
      ⟨0, ((List.replicate 5 JobPhase.waiting).set 0 JobPhase.inFlight).set 1
            JobPhase.inFlight⟩ :=
    Relation.ReflTransGen.tail (Relation.ReflTransGen.tail
      Relation.ReflTransGen.refl h1) h2
  exact ⟨hreach, C9_concurrency_bound 5 2 _ hreach⟩

/-! ## C10 -/

/-- C10: `check_status` builds every result it returns without a
`created_at` timestamp, hence every result `wait_for_completion` returns,
and every entry of a `batch_generate` output (whose per-prompt lifecycles
deliver `wait_for_completion` results or synthetic failures, both
timestamp-free), has `created_at = None`; consequently `get_statistics`
over any such result set finds no completed entry with both timestamps and
reports `average_time = 0`. -/
theorem C10_no_created_at :
    (∀ now tid d, (check_status now tid d).created_at = none) ∧
    (∀ stream tid r t, wait_for_completion stream tid = .ok (r, t) →
        r.created_at = none) ∧
    (∀ prompts outcome,
        (∀ i p r, outcome i p = .ok r → r.created_at = none) →
        ∀ r ∈ batch_generate prompts outcome, r.created_at = none) ∧
    (∀ results, (∀ r ∈ results, r.created_at = none) →
        (get_statistics results).average_time = 0) := by
  refine ⟨check_status_created_at, ?_, ?_, ?_⟩
  · intro stream tid r t h
    obtain ⟨j, hj⟩ := waitLoop_ok_shape stream tid _ _ r t h
    rw [hj]
    exact check_status_created_at _ _ _
  · intro prompts outcome hok r hr
    obtain ⟨⟨i, p⟩, hmem, heq⟩ := List.mem_map.mp hr
    subst heq
    unfold lifecycleResult
    cases houtcome : outcome i p with
    | ok v => exact hok i p v houtcome
    | error e => rfl
  · intro results hres
    have hct : completionTimes results = [] := by
      unfold completionTimes
      rw [List.map_eq_nil_iff]
      rw [List.filter_eq_nil_iff]
      intro a ha
      rw [hres a ha]
      simp
    simp [get_statistics, hct]

/-- C10 witness: the component facts at concrete inputs — a pending status
check, a one-poll completed wait, a batch with one raising lifecycle, and
the statistics over that batch's output. -/
theorem C10_no_created_at_witness :
    (check_status 0 "task" pendingData).created_at = none ∧
    (check_status 0 "task" (completedData "http://v")).created_at = none ∧
    (∀ r ∈ batch_generate ["a"] (fun _ _ => .error "boom"),
        r.created_at = none) ∧
    (get_statistics (batch_generate ["a"] (fun _ _ => .error "boom"))).average_time
      = 0 := by
  have hwait := C10_no_created_at.2.1 (fun _ => completedData "http://v") "task"
    (check_status 0 "task" (completedData "http://v"))
    ⟨1, 0, [check_status 0 "task" (completedData "http://v")]⟩ rfl
  have hbatch := C10_no_created_at.2.2.1 ["a"] (fun _ _ => .error "boom")
    (fun i p r h => Except.noConfusion h)
  exact ⟨C10_no_created_at.1 0 "task" pendingData, hwait, hbatch,
    C10_no_created_at.2.2.2 _ hbatch⟩

end VeoWorkspace
